import Mathlib

/-!
# AICA career-agent pipeline: shallow embedding and verification

This file embeds the core logic of the AICA repository
(`Agentic_AI_Integration.py`, class `CareerAgent`, plus the `find_jobs`
endpoint of `AI_Career_Agent.py`) as Lean definitions and proves or refutes
the specification's claims about it.

Conventions of the embedding:
* Python lists of strings become `List String`; dictionaries with a fixed key
  set become structures; a dictionary key that is only present on some code
  paths becomes an `Option` field (absent key = `none`).
* Python's float computation `int((match_count / len(required_skills)) * 100)`
  is modelled as exact natural floor division `match_count * 100 / len`;
  truncation of the float agrees with the exact floor for every list length
  reachable in practice, since `100 * m / 6` is never within a double-precision
  rounding error of a different integer.
* File input in `_load_mock_job_db` / `CareerAgent.__init__` is modelled by an
  explicit parameter: `none` for "file does not exist", `some (.error e)` for
  "open / json.load raised exception e", `some (.ok jobs)` for a parsed list.
* The object state `self` is threaded explicitly through the workflow, and a
  ghost list of tool-invocation events is recorded, so that purity and
  "which tools ran" are provable facts rather than modelling assumptions.
-/

namespace AICA

/-- A job posting from the mock catalog: a JSON object with string fields
`title`, `company`, `description`. -/
structure Job where
  title : String
  company : String
  description : String
deriving DecidableEq, Repr

/-- The state of a `CareerAgent` object after `__init__`: the stored API key,
the database path, and the loaded job list `self.mock_jobs`. -/
structure AgentState where
  granite_api_key : String
  mock_db_path : String
  mock_jobs : List Job
deriving DecidableEq, Repr

/-- A user profile dictionary. `run_agent` reads `skills` with
`user_profile.get('skills', [])`, so the key may be absent; `goal` is never
read by the core logic. -/
structure Profile where
  skills : Option (List String)
  goal : Option String
deriving DecidableEq, Repr

/-- Contiguous-sublist test: `needle` occurs as a contiguous run inside
`hay` (at the current position or further right). -/
def infixCheck (needle : List Char) : List Char → Bool
  | [] => needle.isEmpty
  | c :: rest => needle.isPrefixOf (c :: rest) || infixCheck needle rest

/-- Python's substring test `needle in hay` on strings: the character list of
`needle` occurs contiguously inside that of `hay`. -/
def strContains (hay needle : String) : Bool :=
  infixCheck needle.data hay.data

/-- Python's `str.lower()`, modelled as per-character lowercasing (identical
to Python on the ASCII text this repository works with). -/
def strLower (s : String) : String :=
  ⟨s.data.map Char.toLower⟩

/-- `_find_jobs_tool(self, skills)`: keeps the catalog jobs whose description
contains some skill, case-insensitively —
`any(skill.lower() in job['description'].lower() for skill in skills)` —
preserving catalog order. -/
def findJobsTool (mock_jobs : List Job) (skills : List String) : List Job :=
  mock_jobs.filter fun job =>
    skills.any fun skill => strContains (strLower job.description) (strLower skill)

/-- The fixed reference taxonomy `required_skills` hard-coded in
`_analyze_skills_tool`. -/
def requiredSkills : List String :=
  ["Python", "Data Analysis", "SQL", "Machine Learning", "AI", "Algorithms"]

/-- The analysis dictionary returned by `_analyze_skills_tool`. -/
structure Analysis where
  match_score : Nat
  skill_gaps : List String
deriving DecidableEq, Repr

/-- The body of `_analyze_skills_tool` with the taxonomy as a parameter,
mirroring
`match_count = sum(1 for skill in user_skills if skill in required_skills)`,
`match_score = int((match_count / len(required_skills)) * 100) if required_skills else 0`,
`skill_gaps = [skill for skill in required_skills if skill not in user_skills]`. -/
def analyzeSkillsWith (required_skills user_skills : List String) : Analysis :=
  let match_count := user_skills.countP fun skill => required_skills.contains skill
  let match_score :=
    if required_skills.isEmpty then 0
    else match_count * 100 / required_skills.length
  let skill_gaps := required_skills.filter fun skill => !user_skills.contains skill
  { match_score := match_score, skill_gaps := skill_gaps }

/-- `_analyze_skills_tool(self, user_skills, job_description)`: the job
description parameter is accepted but unused; the hard-coded taxonomy
`requiredSkills` is used for every job. -/
def analyzeSkillsTool (user_skills : List String) (_job_description : String) : Analysis :=
  analyzeSkillsWith requiredSkills user_skills

/-- The hard-coded `recommendations` dictionary of `_recommend_learning_tool`
(distinct keys, so association-list lookup models `dict.get`). -/
def recommendationsTable : List (String × String) :=
  [("Python", "Coursera: Python for Everybody"),
   ("Data Analysis", "DataCamp: Data Analyst with Python"),
   ("SQL", "Udemy: The Complete SQL Bootcamp"),
   ("Machine Learning", "Coursera: Machine Learning by Andrew Ng"),
   ("AI", "IBM SkillsBuild: Getting Started with AI")]

/-- `recommendations.get(skill, f"Online resources for {skill}")`. -/
def recLookup (skill : String) : String :=
  match recommendationsTable.find? (fun p => p.1 == skill) with
  | some p => p.2
  | none => "Online resources for " ++ skill

/-- `_recommend_learning_tool(self, skill_gaps)`:
`[recommendations.get(skill, f"Online resources for {skill}") for skill in skill_gaps]`. -/
def recommendLearningTool (skill_gaps : List String) : List String :=
  skill_gaps.map recLookup

/-- `_load_mock_job_db(self)`: if the file does not exist the catalog is set
to `[]` with only a printed warning; if it exists, the result (or exception)
of `json.load` propagates. The file system outcome is the explicit
`source` parameter, as described in the file header. -/
def loadMockJobDb (source : Option (Except String (List Job))) :
    Except String (List Job) :=
  match source with
  | none => .ok []
  | some r => r

/-- `CareerAgent.__init__(granite_api_key, mock_db_path)`: stores both
arguments and runs `_load_mock_job_db`; an exception raised there escapes the
constructor. -/
def initAgent (granite_api_key mock_db_path : String)
    (source : Option (Except String (List Job))) : Except String AgentState :=
  (loadMockJobDb source).map fun jobs =>
    { granite_api_key := granite_api_key, mock_db_path := mock_db_path,
      mock_jobs := jobs }

/-- A per-job entry of the final report. `run_agent` builds the dictionary
with keys `title`, `company`, `match_score`, and adds `skill_gaps` and
`learning_plan` only when the analysis found gaps, so those two keys are
`Option` fields. -/
structure JobMatch where
  title : String
  company : String
  match_score : Nat
  skill_gaps : Option (List String)
  learning_plan : Option (List String)
deriving DecidableEq, Repr

/-- The dictionary returned by `run_agent` (and by the `find_jobs` endpoint).
The no-jobs return carries `status` and `report` but no `matches` key; the
success return carries `status` and `matches` but no `report` key; the
endpoint adds further combinations. Keys absent on a path are `none`. -/
structure Report where
  status : String
  report : Option String
  jobMatches : Option (List JobMatch)
deriving DecidableEq, Repr

/-- Ghost record of one tool invocation inside the workflow. -/
inductive ToolEvent where
  | findJobs
  | analyzeSkills
  | recommendLearning
deriving DecidableEq, Repr

/-- `self._find_jobs_tool(skills)` as seen from `run_agent`: reads
`self.mock_jobs`, performs no assignment to `self`, and is recorded as one
catalog query. -/
def findJobsToolFull (st : AgentState) (skills : List String) :
    List Job × AgentState × List ToolEvent :=
  (findJobsTool st.mock_jobs skills, st, [ToolEvent.findJobs])

/-- `self._analyze_skills_tool(user_skills, job_description)` as seen from
`run_agent`: no assignment to `self`, one recorded invocation. -/
def analyzeSkillsToolFull (st : AgentState) (user_skills : List String)
    (job_description : String) : Analysis × AgentState × List ToolEvent :=
  (analyzeSkillsTool user_skills job_description, st, [ToolEvent.analyzeSkills])

/-- `self._recommend_learning_tool(skill_gaps)` as seen from `run_agent`:
no assignment to `self`, one recorded invocation. -/
def recommendLearningToolFull (st : AgentState) (skill_gaps : List String) :
    List String × AgentState × List ToolEvent :=
  (recommendLearningTool skill_gaps, st, [ToolEvent.recommendLearning])

/-- One iteration of the `for job in job_listings` loop of `run_agent`:
analyze the job, build `job_match`, attach `skill_gaps` and `learning_plan`
when `analysis['skill_gaps']` is non-empty, and append to the accumulated
matches. The accumulator carries (matches so far, object state, event trace). -/
def stepJob (user_skills : List String)
    (acc : List JobMatch × AgentState × List ToolEvent) (job : Job) :
    List JobMatch × AgentState × List ToolEvent :=
  let r1 := analyzeSkillsToolFull acc.2.1 user_skills job.description
  let analysis := r1.1
  let base : JobMatch :=
    { title := job.title, company := job.company,
      match_score := analysis.match_score,
      skill_gaps := none, learning_plan := none }
  if analysis.skill_gaps.isEmpty then
    (acc.1 ++ [base], r1.2.1, acc.2.2 ++ r1.2.2)
  else
    let r2 := recommendLearningToolFull r1.2.1 analysis.skill_gaps
    (acc.1 ++ [{ base with skill_gaps := some analysis.skill_gaps,
                           learning_plan := some r2.1 }],
     r2.2.1, acc.2.2 ++ r1.2.2 ++ r2.2.2)

/-- `run_agent(self, user_profile)`, instrumented with the final object state
and the trace of tool invocations: read `skills` (default `[]`), call the job
search tool, return the no-jobs dictionary if the result is empty, otherwise
analyze every found job in order and assemble the success report. -/
def runAgentFull (st : AgentState) (user_profile : Profile) :
    Report × AgentState × List ToolEvent :=
  let user_skills := user_profile.skills.getD []
  let r1 := findJobsToolFull st user_skills
  let job_listings := r1.1
  if job_listings.isEmpty then
    ({ status := "No jobs found.",
       report := some "No suitable job listings were found with your current skills.",
       jobMatches := none }, r1.2.1, r1.2.2)
  else
    let r2 := job_listings.foldl (stepJob user_skills) ([], r1.2.1, r1.2.2)
    ({ status := "Success", report := none, jobMatches := some r2.1 },
     r2.2.1, r2.2.2)

/-- The report value returned by `run_agent`. -/
def runAgent (st : AgentState) (user_profile : Profile) : Report :=
  (runAgentFull st user_profile).1

/-- The `find_jobs` endpoint of `AI_Career_Agent.py`, instrumented like
`runAgentFull`; the result pairs the JSON body with the HTTP status code.
`data.get('skills', [])` is the `Option` argument; an empty list is rejected
before any tool runs; an empty search result returns Success with empty
matches; otherwise `run_agent` is invoked on `{"skills": skills}`. -/
def findJobsEndpointFull (st : AgentState) (data_skills : Option (List String)) :
    (Report × Nat) × List ToolEvent :=
  let skills := data_skills.getD []
  if skills.isEmpty then
    (({ status := "Error", report := some "Please provide a list of skills.",
        jobMatches := none }, 400), [])
  else
    let job_listings := findJobsTool st.mock_jobs skills
    if job_listings.isEmpty then
      (({ status := "Success", report := some "No suitable jobs found.",
          jobMatches := some [] }, 200), [ToolEvent.findJobs])
    else
      let r := runAgentFull st { skills := some skills, goal := none }
      ((r.1, 200), ToolEvent.findJobs :: r.2.2)

/-- The mock catalog written by the `__main__` block of
`Agentic_AI_Integration.py` (`mock_jobs_data`). -/
def sampleJobs : List Job :=
  [{ title := "Data Scientist", company := "TechCorp",
     description := "Looking for a Data Scientist with strong Python, SQL, and Machine Learning skills." },
   { title := "Web Developer", company := "Code Inc.",
     description := "Experienced Web Developer needed with JavaScript, HTML, and CSS skills." },
   { title := "AI Engineer", company := "AI Innovators",
     description := "Seeking an AI Engineer with expertise in AI, Machine Learning, and algorithms." },
   { title := "Business Analyst", company := "Global Solutions",
     description := "Need a Business Analyst with strong communication and analysis skills." }]

/-- An agent state loaded with the sample catalog, as built by the
`__main__` block. -/
def sampleState : AgentState :=
  { granite_api_key := "YOUR_GRANITE_API_KEY",
    mock_db_path := "mock_job_db.json", mock_jobs := sampleJobs }

/-! ## Helper lemmas -/

/-- `infixCheck` decides the contiguous-sublist relation. -/
theorem infixCheck_iff (needle hay : List Char) :
    infixCheck needle hay = true ↔ needle <:+: hay := by
  induction hay with
  | nil => simp [infixCheck, List.isEmpty_iff]
  | cons c rest ih =>
    simp [infixCheck, List.infix_cons_iff, ih, List.isPrefixOf_iff_prefix]

/-- `strContains` decides the contiguous-sublist relation on character data. -/
theorem strContains_iff (hay needle : String) :
    strContains hay needle = true ↔ needle.data <:+: hay.data :=
  infixCheck_iff needle.data hay.data

/-- A skill is in the lookup table's key set iff `find?` locates a pair for it. -/
theorem recLookup_not_found (s : String)
    (h : s ∉ recommendationsTable.map Prod.fst) :
    recommendationsTable.find? (fun p => p.1 == s) = none := by
  cases hf : recommendationsTable.find? (fun p => p.1 == s) with
  | none => rfl
  | some p =>
    exfalso
    have hmem : p ∈ recommendationsTable := List.mem_of_find?_eq_some hf
    have hkey : p.1 = s := by simpa using List.find?_some hf
    exact h (hkey ▸ List.mem_map_of_mem Prod.fst hmem)

/-! ## Claims about the Job Finder and the Learning Recommender -/

/-- C4: a catalog job appears in `_find_jobs_tool(skills)` iff some skill of
`skills`, lower-cased, occurs as a contiguous substring of the job's
lower-cased description; the result is a sublist of the catalog (stable
filter, catalog order preserved); the empty skill list yields an empty
result. -/
theorem find_jobs_spec (skills : List String) (catalog : List Job) :
    (∀ J ∈ catalog,
      (J ∈ findJobsTool catalog skills ↔
        ∃ s ∈ skills, (strLower s).data <:+: (strLower J.description).data)) ∧
    List.Sublist (findJobsTool catalog skills) catalog ∧
    findJobsTool catalog [] = [] := by
  refine ⟨?_, List.filter_sublist _, ?_⟩
  · intro J hJ
    rw [findJobsTool, List.mem_filter]
    simp only [List.any_eq_true, strContains_iff]
    constructor
    · rintro ⟨-, s, hs, hinf⟩
      exact ⟨s, hs, hinf⟩
    · rintro ⟨s, hs, hinf⟩
      exact ⟨hJ, s, hs, hinf⟩
  · simp [findJobsTool]

/-- C4 witness: with the sample catalog, searching for "python" returns the
Data Scientist posting. -/
theorem find_jobs_spec_witness :
    { title := "Data Scientist", company := "TechCorp",
      description := "Looking for a Data Scientist with strong Python, SQL, and Machine Learning skills." : Job }
      ∈ findJobsTool sampleJobs ["python"] :=
  ((find_jobs_spec ["python"] sampleJobs).1 _ (by decide)).mpr
    ⟨"python", by decide, (infixCheck_iff _ _).mp (by decide)⟩

/-- C7: `_recommend_learning_tool` returns exactly one entry per input gap, in
input order (entry `i` is the lookup of gap `i`); a gap that is a key of the
static table yields its mapped resource; a gap absent from the table's keys
yields the generic fallback string, which contains the skill name. -/
theorem recommend_learning_spec (gaps : List String) :
    (recommendLearningTool gaps).length = gaps.length ∧
    (∀ i : Nat, (recommendLearningTool gaps)[i]? = (gaps[i]?).map recLookup) ∧
    (∀ s r, (s, r) ∈ recommendationsTable → recLookup s = r) ∧
    (∀ s, s ∉ recommendationsTable.map Prod.fst →
      recLookup s = "Online resources for " ++ s ∧
      s.data <:+: (recLookup s).data) := by
  refine ⟨List.length_map _ _, ?_, ?_, ?_⟩
  · intro i
    simp [recommendLearningTool]
  · intro s r h
    simp only [recommendationsTable, List.mem_cons, List.not_mem_nil, or_false,
      Prod.mk.injEq] at h
    rcases h with ⟨rfl, rfl⟩ | ⟨rfl, rfl⟩ | ⟨rfl, rfl⟩ | ⟨rfl, rfl⟩ | ⟨rfl, rfl⟩ <;> rfl
  · intro s hs
    have hlook : recLookup s = "Online resources for " ++ s := by
      rw [recLookup, recLookup_not_found s hs]
    refine ⟨hlook, ?_⟩
    rw [hlook]
    exact ⟨"Online resources for ".data, [], by simp [String.data_append]⟩

/-- C7 witness: "Rust" has no table entry, so it gets the generic fallback;
"SQL" has one. -/
theorem recommend_learning_spec_witness :
    recLookup "Rust" = "Online resources for Rust" ∧
    recLookup "SQL" = "Udemy: The Complete SQL Bootcamp" :=
  ⟨((recommend_learning_spec []).2.2.2 "Rust" (by decide)).1,
   (recommend_learning_spec []).2.2.1 "SQL" _ (by decide)⟩

/-! ## Claims about the Skill Analyzer -/

/-- On a duplicate-free list, counting the entries that lie in `req` cannot
exceed the length of `req`. -/
theorem countP_contains_le_length (S req : List String) (h : S.Nodup) :
    (S.countP fun s => req.contains s) ≤ req.length := by
  rw [List.countP_eq_length_filter]
  have h1 : (S.filter fun s => req.contains s).Nodup := h.filter _
  have h2 : (S.filter fun s => req.contains s).toFinset ⊆ req.toFinset := by
    intro x hx
    rw [List.mem_toFinset] at hx ⊢
    simpa using (List.mem_filter.mp hx).2
  calc (S.filter fun s => req.contains s).length
      = (S.filter fun s => req.contains s).toFinset.card :=
        (List.toFinset_card_of_nodup h1).symm
    _ ≤ req.toFinset.card := Finset.card_le_card h2
    _ ≤ req.length := List.toFinset_card_le req

/-- On a duplicate-free list, the count of entries lying in `req` is the
cardinality of the set intersection. -/
theorem countP_contains_eq_card_inter (S req : List String) (h : S.Nodup) :
    (S.countP fun s => req.contains s) = (S.toFinset ∩ req.toFinset).card := by
  rw [List.countP_eq_length_filter,
    ← List.toFinset_card_of_nodup (h.filter fun s => req.contains s)]
  congr 1
  ext x
  simp [List.mem_filter, Finset.mem_inter, List.mem_toFinset]

/-- The score computed by `_analyze_skills_tool` is `match_count * 100 / 6`
with `match_count` counting the entries of `user_skills` (with multiplicity)
that belong to the six-element taxonomy. -/
theorem analyzeSkillsTool_score (S : List String) (desc : String) :
    (analyzeSkillsTool S desc).match_score =
      (S.countP fun s => requiredSkills.contains s) * 100 / 6 := rfl

/-- C1 counterexample: a skill list with seven copies of "Python" drives the
match score to 116, outside [0,100], refuting the unrestricted range claim. -/
theorem match_score_range_counterexample :
    (analyzeSkillsTool
      ["Python", "Python", "Python", "Python", "Python", "Python", "Python"]
      "desc").match_score = 116 ∧
    ¬ (analyzeSkillsTool
      ["Python", "Python", "Python", "Python", "Python", "Python", "Python"]
      "desc").match_score ≤ 100 := by
  constructor
  · rfl
  · decide

/-- C1 amended: for every duplicate-free user skill list the match score lies
in [0,100]; with an empty reference taxonomy the score is 0 (duplicate
taxonomy entries in the input can push the score above 100). -/
theorem match_score_range (S : List String) (desc : String) :
    (S.Nodup → (analyzeSkillsTool S desc).match_score ≤ 100) ∧
    (analyzeSkillsWith [] S).match_score = 0 := by
  constructor
  · intro h
    rw [analyzeSkillsTool_score]
    have hc : (S.countP fun s => requiredSkills.contains s) ≤ 6 :=
      countP_contains_le_length S requiredSkills h
    omega
  · rfl

/-- C1 witness: a concrete duplicate-free list stays within the range. -/
theorem match_score_range_witness :
    (analyzeSkillsTool ["Python", "SQL", "Machine Learning"] "d").match_score ≤ 100 :=
  (match_score_range ["Python", "SQL", "Machine Learning"] "d").1 (by decide)

/-- C6: the match score never decreases when the skill list gains a member of
the reference taxonomy (added at the front or at the back). -/
theorem match_score_monotone (S : List String) (desc : String) (s : String)
    (h : s ∈ requiredSkills) :
    (analyzeSkillsTool S desc).match_score ≤
      (analyzeSkillsTool (s :: S) desc).match_score ∧
    (analyzeSkillsTool S desc).match_score ≤
      (analyzeSkillsTool (S ++ [s]) desc).match_score := by
  have hc : requiredSkills.contains s = true := by simpa using h
  have hcons : ((s :: S).countP fun t => requiredSkills.contains t) =
      (S.countP fun t => requiredSkills.contains t) + 1 :=
    List.countP_cons_of_pos _ _ hc
  have happ : ((S ++ [s]).countP fun t => requiredSkills.contains t) =
      (S.countP fun t => requiredSkills.contains t) + 1 := by
    rw [List.countP_append]
    simp [List.countP_cons, hc, h]
  rw [analyzeSkillsTool_score, analyzeSkillsTool_score, analyzeSkillsTool_score,
    hcons, happ]
  omega

/-- C6 witness: adding "AI" to a concrete list does not decrease the score. -/
theorem match_score_monotone_witness :
    (analyzeSkillsTool ["SQL"] "d").match_score ≤
      (analyzeSkillsTool ["AI", "SQL"] "d").match_score :=
  (match_score_monotone ["SQL"] "d" "AI" (by decide)).1

/-- C10: `match_count` counts user entries with multiplicity; on a
duplicate-free list the score is `|S ∩ taxonomy| * 100 / 6` and lies in
[0,100]; adding one more copy of any taxonomy skill strictly increases the
score. -/
theorem match_score_multiplicity (S : List String) (desc : String) :
    (analyzeSkillsTool S desc).match_score =
      (S.countP fun s => requiredSkills.contains s) * 100 / 6 ∧
    (S.Nodup →
      (analyzeSkillsTool S desc).match_score =
        (S.toFinset ∩ requiredSkills.toFinset).card * 100 / 6 ∧
      (analyzeSkillsTool S desc).match_score ≤ 100) ∧
    (∀ s ∈ requiredSkills,
      (analyzeSkillsTool S desc).match_score <
        (analyzeSkillsTool (s :: S) desc).match_score) := by
  refine ⟨analyzeSkillsTool_score S desc, ?_, ?_⟩
  · intro h
    constructor
    · rw [analyzeSkillsTool_score, countP_contains_eq_card_inter S requiredSkills h]
    · rw [analyzeSkillsTool_score]
      have hc : (S.countP fun s => requiredSkills.contains s) ≤ 6 :=
        countP_contains_le_length S requiredSkills h
      omega
  · intro s hs
    have hc : requiredSkills.contains s = true := by simpa using hs
    have hcons : ((s :: S).countP fun t => requiredSkills.contains t) =
        (S.countP fun t => requiredSkills.contains t) + 1 :=
      List.countP_cons_of_pos _ _ hc
    rw [analyzeSkillsTool_score, analyzeSkillsTool_score, hcons]
    omega

/-- C10 witness: a duplicate "Python" strictly increases a concrete score. -/
theorem match_score_multiplicity_witness :
    (analyzeSkillsTool ["Python"] "d").match_score <
      (analyzeSkillsTool ["Python", "Python"] "d").match_score :=
  (match_score_multiplicity ["Python"] "d").2.2 "Python" (by decide)

/-- C5: the skill gaps of `_analyze_skills_tool` contain no member of the
input list, they are exactly the taxonomy skills not in the input, listed in
taxonomy order (a sublist of the taxonomy), and together with `S ∩ taxonomy`
they partition the taxonomy. -/
theorem skill_gaps_partition (S : List String) (desc : String) :
    (∀ g ∈ (analyzeSkillsTool S desc).skill_gaps, g ∉ S) ∧
    List.Sublist (analyzeSkillsTool S desc).skill_gaps requiredSkills ∧
    (∀ t ∈ requiredSkills,
      (t ∈ (analyzeSkillsTool S desc).skill_gaps ↔ t ∉ S)) ∧
    (analyzeSkillsTool S desc).skill_gaps.toFinset ∪
        (S.toFinset ∩ requiredSkills.toFinset) = requiredSkills.toFinset ∧
    (analyzeSkillsTool S desc).skill_gaps.toFinset ∩ S.toFinset = ∅ := by
  have hgaps : (analyzeSkillsTool S desc).skill_gaps =
      requiredSkills.filter fun skill => !S.contains skill := rfl
  refine ⟨?_, ?_, ?_, ?_, ?_⟩
  · intro g hg
    rw [hgaps, List.mem_filter] at hg
    simpa using hg.2
  · rw [hgaps]
    exact List.filter_sublist _
  · intro t ht
    rw [hgaps, List.mem_filter]
    simp [ht]
  · ext x
    rw [hgaps]
    simp only [Finset.mem_union, Finset.mem_inter, List.mem_toFinset,
      List.mem_filter]
    constructor
    · rintro (⟨hx, -⟩ | ⟨-, hx⟩) <;> exact hx
    · intro hx
      by_cases hxs : x ∈ S
      · exact Or.inr ⟨hxs, hx⟩
      · exact Or.inl ⟨hx, by simpa using hxs⟩
  · ext x
    rw [hgaps]
    simp only [Finset.mem_inter, List.mem_toFinset, List.mem_filter,
      Finset.not_mem_empty, iff_false, not_and]
    rintro ⟨-, hnot⟩
    simpa using hnot

/-- C5 witness: for the list ["Python"], "Data Analysis" is reported as a
gap. -/
theorem skill_gaps_partition_witness :
    "Data Analysis" ∈ (analyzeSkillsTool ["Python"] "d").skill_gaps :=
  ((skill_gaps_partition ["Python"] "d").2.2.1 "Data Analysis" (by decide)).mpr
    (by decide)

/-! ## Claims about the orchestrator and the catalog -/

/-- One loop iteration of `run_agent` leaves the object state unchanged. -/
theorem stepJob_state (u : List String)
    (acc : List JobMatch × AgentState × List ToolEvent) (j : Job) :
    (stepJob u acc j).2.1 = acc.2.1 := by
  simp only [stepJob, analyzeSkillsToolFull, recommendLearningToolFull]
  split <;> rfl

/-- The whole analysis loop of `run_agent` leaves the object state unchanged. -/
theorem foldl_stepJob_state (u : List String) (jobs : List Job)
    (acc : List JobMatch × AgentState × List ToolEvent) :
    (jobs.foldl (stepJob u) acc).2.1 = acc.2.1 := by
  induction jobs generalizing acc with
  | nil => rfl
  | cons j js ih => rw [List.foldl_cons, ih, stepJob_state]

/-- `run_agent` returns the object state it started from. -/
theorem runAgentFull_state (st : AgentState) (p : Profile) :
    (runAgentFull st p).2.1 = st := by
  simp only [runAgentFull, findJobsToolFull]
  split
  · rfl
  · exact foldl_stepJob_state _ _ _

/-- C9: the workflow performs no hidden state mutation — the agent object
after `run_agent` equals the object before it — and a second invocation on
the identical profile from the post-run state returns the identical report
(and identical tool trace). -/
theorem run_agent_idempotent (st : AgentState) (p : Profile) :
    (runAgentFull st p).2.1 = st ∧
    (runAgentFull (runAgentFull st p).2.1 p).1 = (runAgentFull st p).1 ∧
    (runAgentFull (runAgentFull st p).2.1 p).2.2 = (runAgentFull st p).2.2 := by
  refine ⟨runAgentFull_state st p, ?_, ?_⟩ <;> rw [runAgentFull_state st p]

/-- C2 counterexample: on the sample catalog with `skills = []`, `run_agent`
does not terminate in the Error state (its status is "No jobs found.") and
the Job Finder is invoked (the catalog query does happen). -/
theorem empty_skills_counterexample :
    (runAgent sampleState { skills := some [], goal := none }).status =
      "No jobs found." ∧
    (runAgent sampleState { skills := some [], goal := none }).status ≠
      "Error" ∧
    ToolEvent.findJobs ∈
      (runAgentFull sampleState { skills := some [], goal := none }).2.2 := by
  refine ⟨rfl, by decide, by decide⟩

/-- C2 amended: `run_agent` itself performs the catalog query for an empty
skill list and terminates with the NoJobsFound report; the Error state with a
user-facing message and no tool invocation is produced by the `find_jobs`
endpoint guard, which rejects empty skills before calling any tool. -/
theorem empty_skills_behavior (st : AgentState) :
    (runAgentFull st { skills := some [], goal := none }).1 =
      { status := "No jobs found.",
        report := some "No suitable job listings were found with your current skills.",
        jobMatches := none } ∧
    (runAgentFull st { skills := some [], goal := none }).2.2 =
      [ToolEvent.findJobs] ∧
    findJobsEndpointFull st (some []) =
      (({ status := "Error", report := some "Please provide a list of skills.",
          jobMatches := none }, 400), []) := by
  have hfind : findJobsTool st.mock_jobs [] = [] := by
    simp [findJobsTool]
  refine ⟨?_, ?_, rfl⟩ <;>
    simp [runAgentFull, findJobsToolFull, hfind]

/-- C3 counterexample: searching the sample catalog for "COBOL" finds no
jobs, and the resulting report has status "No jobs found." but carries no
`matches` key at all — in particular its matches field is not the empty
sequence `some []` that the claim asserts. -/
theorem no_jobs_counterexample :
    findJobsTool sampleState.mock_jobs ["COBOL"] = [] ∧
    (runAgent sampleState { skills := some ["COBOL"], goal := none }).status =
      "No jobs found." ∧
    (runAgent sampleState { skills := some ["COBOL"], goal := none }).report =
      some "No suitable job listings were found with your current skills." ∧
    (runAgent sampleState { skills := some ["COBOL"], goal := none }).jobMatches
      ≠ some [] := by
  refine ⟨by decide, rfl, rfl, by decide⟩

/-- C3 amended: whenever the Job Finder returns no candidate jobs, `run_agent`
returns the NoJobsFound report with an explanatory message and with the
`matches` key omitted (absent rather than present-and-empty). -/
theorem no_jobs_report (st : AgentState) (p : Profile)
    (h : findJobsTool st.mock_jobs (p.skills.getD []) = []) :
    (runAgentFull st p).1 =
      { status := "No jobs found.",
        report := some "No suitable job listings were found with your current skills.",
        jobMatches := none } := by
  simp [runAgentFull, findJobsToolFull, h]

/-- C3 witness: a concrete no-match search produces the NoJobsFound report. -/
theorem no_jobs_report_witness :
    (runAgentFull sampleState { skills := some ["Fortran"], goal := none }).1 =
      { status := "No jobs found.",
        report := some "No suitable job listings were found with your current skills.",
        jobMatches := none } :=
  no_jobs_report sampleState { skills := some ["Fortran"], goal := none }
    (by decide)

/-- C8 counterexample: a missing catalog file does not fail at all (the load
returns an empty catalog, with no `CatalogUnavailable` error), while a read
or parse failure on an existing file propagates out of the constructor as a
raw exception instead of degrading to an empty catalog. -/
theorem load_catalog_counterexample :
    loadMockJobDb none = Except.ok [] ∧
    loadMockJobDb (some (Except.error "Expecting value: line 1 column 1 (char 0)"))
      = Except.error "Expecting value: line 1 column 1 (char 0)" ∧
    initAgent "YOUR_GRANITE_API_KEY" "mock_job_db.json"
      (some (Except.error "Expecting value: line 1 column 1 (char 0)"))
      = Except.error "Expecting value: line 1 column 1 (char 0)" :=
  ⟨rfl, rfl, rfl⟩

/-- C8 amended: a missing catalog file yields an agent with an empty catalog
and no error, and every later workflow run degrades to the non-fatal
NoJobsFound outcome; a failure while reading an existing file, however,
propagates out of the constructor as an uncaught exception (no
`CatalogUnavailable` value exists anywhere in the code). -/
theorem load_catalog_degrades (key path : String) (p : Profile) :
    initAgent key path none = Except.ok ⟨key, path, []⟩ ∧
    (runAgentFull ⟨key, path, []⟩ p).1.status = "No jobs found." ∧
    (∀ e : String, loadMockJobDb (some (Except.error e)) = Except.error e) :=
  ⟨rfl, rfl, fun _ => rfl⟩

end AICA
